import Mathlib

/-!
Verification development for the tbltalk micro-ORM
(`tbltalk/tbltalk.py`, `tbltalk/dbdialect.py`).

The Python source is shallowly embedded: Python values that flow through
the SQL-building code are modelled by the inductive `PyV` (strings, ints,
bools, lists, `None`); exceptions raised by the code are modelled by
`Except PyErr`; `str.format_map` with the `SafeDict` of `safeformat` is
modelled by a small template scanner that substitutes `{key}` tokens and
leaves unknown keys verbatim.  Database I/O is abstracted: functions that
execute SQL receive the cursor behaviour (`fetchone` / row iteration) as
an explicit argument.
-/

namespace Tbltalk

/-- Exceptions raised by the embedded code, one constructor per `raise`
site (Python raises `ValueError` / `TypeError` / `AttributeError` /
`RuntimeError` with distinct messages; we keep them apart by kind). -/
inductive PyErr where
  /-- `sqlparam`: "non-integer index value" -/
  | nonIntegerIndex
  /-- `sqlparam`: "Unsupported name value" (name contains `;` or `'`) -/
  | unsupportedNameValue
  /-- `sqlparam`: "name is None for paramstyle == 'named'" -/
  | nameNoneForNamed
  /-- `sqlparam`: "Unsupported paramstyle" -/
  | unsupportedParamstyle
  /-- `_create_select_sql_impl.check_cols`: "Possible SQL Injection detected" -/
  | sqlInjection
  /-- `dynamicquery`: positional args passed ("Named arguments are required") -/
  | positionalArgsNotAllowed
  /-- `dynamicquery`: "Cannot mix passing in a where clause and constraint parameters" -/
  | mixedWhereAndConstraints
  /-- a Python `TypeError` from an operation applied to a value of the wrong type -/
  | typeError
  /-- `DbTable.__getattr__`: name does not match `_re_dynamic_methods` -/
  | attributeError (name : String)
  /-- `DbTable.__getattr__.runit`: `RuntimeError("Method not found: ...")`
  wrapping the exception raised by `dynamicquery` -/
  | methodNotFound (name : String) (cause : PyErr)
deriving DecidableEq, Repr

/-- Python values reaching the SQL builders: `None`, `str`, `int`, `bool`
and lists (used for column sequences and parameter tuples). -/
inductive PyV where
  | none
  | str (s : String)
  | int (i : Int)
  | bool (b : Bool)
  | list (l : List PyV)
deriving Repr

/-- Python truthiness for the embedded values (`if value:`). -/
def pyTruthy : PyV → Bool
  | .none => false
  | .str s => !(s == "")
  | .int i => !(i == 0)
  | .bool b => b
  | .list l => !l.isEmpty

/-- `sep.join(xs)` for Python strings. -/
def pyJoin (sep : String) : List String → String
  | [] => ""
  | [x] => x
  | x :: xs => x ++ sep ++ pyJoin sep xs

mutual

/-- Python `str(value)` for the embedded values (only `str`/`int` are
reached by the claims; the other renderings follow Python's `str`). -/
def pyStr : PyV → String
  | .none => "None"
  | .str s => s
  | .int i => toString i
  | .bool b => if b then "True" else "False"
  | .list l => "[" ++ pyJoin ", " (pyStrList l) ++ "]"

/-- `pyStr` mapped over the elements of a list value. -/
def pyStrList : List PyV → List String
  | [] => []
  | v :: rest => pyStr v :: pyStrList rest

end

/-- The injection heuristic used throughout the source:
`';' in s or "'" in s`. -/
def hasBad (s : String) : Bool :=
  s.data.contains ';' || s.data.contains '\''

/-- Python `str.lower()` (ASCII inputs), character by character. -/
def pyLower (s : String) : String :=
  String.mk (s.data.map Char.toLower)

/-- Python `str.startswith(pre)`: is `pre` a prefix of `s`? -/
def pyStartsWith (s pre : String) : Bool :=
  pre.data.isPrefixOf s.data

/-- `first(iterable, default=None)` from the source module: the first
element of the iterable, `None` when it is empty. -/
def first {ρ : Type} : List ρ → Option ρ
  | [] => Option.none
  | x :: _ => Option.some x

/-- Is this Python value an `int` for `isinstance(index, int)`?  Python
`bool` is a subclass of `int`, so `True`/`False` also pass the check. -/
def pyIsInt : PyV → Bool
  | .int _ => true
  | .bool _ => true
  | _ => false

/-- `sqlparam(paramstyle, name=None, index=0)`: returns a SQL parameter
placeholder for the given DB-API paramstyle (tbltalk.py lines 103-129). -/
def sqlparam (paramstyle : String) (name : Option String) (index : PyV) :
    Except PyErr String :=
  if ¬ pyIsInt index then .error .nonIntegerIndex
  else if (match name with
           | Option.some s => s ≠ "" && hasBad s
           | Option.none => false) then .error .unsupportedNameValue
  else if paramstyle = "qmark" then .ok "?"
  else if paramstyle = "numeric" then .ok (":" ++ pyStr index)
  else if paramstyle = "named" then
    match name with
    | Option.none => .error .nameNoneForNamed
    | Option.some s => .ok (":" ++ s)
  else if paramstyle = "format" then .ok "%s"
  else if paramstyle = "pyformat" then .ok "%s"
  else .error .unsupportedParamstyle

/-! ### `safeformat`

`safeformat(str, **kwargs)` is `str.format_map(SafeDict(**kwargs))`:
each `{key}` token is replaced by its value, and a key missing from the
replacements is kept verbatim as `{key}`.  We embed it as a scanner that
splits the template into literal and key tokens and then substitutes. -/

/-- A token of a format template: a literal run or a `{key}` reference. -/
inductive Tok where
  | lit (s : String)
  | key (s : String)
deriving DecidableEq, Repr

/-- Scanner for format templates.  The `fuel` argument only bounds the
recursion and is always supplied as more than the input length, so it
never runs out. -/
def parseFmtAux : Nat → List Char → List Tok
  | 0, _ => []
  | _, [] => []
  | fuel + 1, c :: cs =>
    if c = '\x7b' then
      Tok.key (String.mk (cs.takeWhile (fun d => d ≠ '\x7d'))) ::
        parseFmtAux fuel ((cs.dropWhile (fun d => d ≠ '\x7d')).drop 1)
    else
      Tok.lit (String.mk (c :: cs.takeWhile (fun d => d ≠ '\x7b'))) ::
        parseFmtAux fuel (cs.dropWhile (fun d => d ≠ '\x7b'))

/-- First-match lookup in an association list (Python dict lookup for the
concrete replacement dicts used by the source). -/
def pylookup : List (String × String) → String → Option String
  | [], _ => Option.none
  | (k, v) :: rest, q => if k = q then Option.some v else pylookup rest q

/-- Substitute one token using the replacements; a missing key renders
back as `{key}` (the `SafeDict.__missing__` behaviour). -/
def renderTok (env : List (String × String)) : Tok → String
  | .lit s => s
  | .key k =>
    match pylookup env k with
    | Option.some v => v
    | Option.none => "\x7b" ++ k ++ "\x7d"

/-- Concatenation of the rendered tokens. -/
def concatAll : List String → String
  | [] => ""
  | s :: rest => s ++ concatAll rest

/-- `safeformat(str, **kwargs)` (tbltalk.py lines 155-161). -/
def safeformat (s : String) (env : List (String × String)) : String :=
  concatAll ((parseFmtAux (s.data.length + 1) s.data).map (renderTok env))

/-! ### Dialects (`tbltalk/dbdialect.py`) -/

/-- The `keywords` mapping of a dialect (`where`/`from` are Lean keywords,
hence the trailing underscores). -/
structure Keywords where
  select : String
  distinct : String
  from_ : String
  where_ : String
  groupby : String
  having : String
  orderby : String
  limit : String
  count : String
  min : String
  max : String
  avg : String
deriving DecidableEq, Repr

/-- A SQL dialect: the statement templates and keywords
(`dbdialect.py`). -/
structure Dialect where
  dialect : String
  insert_sql : String
  select_sql : String
  update_sql : String
  delete_sql : String
  column_schema : String
  column_schema_2part : String
  get_last_inserted_id : Option String
  paging : String × String
  keywords : Keywords
deriving DecidableEq, Repr

/-- `sql92_dialect` (dbdialect.py lines 1-35). -/
def sql92_dialect : Dialect :=
  { dialect := "sql"
    insert_sql := "INSERT INTO {table} ({columns}) VALUES ({values})"
    select_sql := "SELECT{distinct} {columns} FROM {table}{where}{groupby}{having}{orderby}{limit}"
    update_sql := "UPDATE {table} SET {set_columns}"
    delete_sql := "DELETE FROM {table}"
    column_schema := "SELECT * FROM INFORMATION_SCHEMA.COLUMNS WHERE TABLE_NAME = {table}"
    column_schema_2part := "SELECT * FROM INFORMATION_SCHEMA.COLUMNS WHERE TABLE_NAME = {table} AND TABLE_SCHEMA = {schema}"
    get_last_inserted_id := Option.none
    paging :=
      ("SELECT COUNT(*) FROM ({subquery}) x",
       "SELECT {columns} FROM {table}{where}{groupby}{having}{orderby} LIMIT {page_size} OFFSET {page_start}")
    keywords :=
      { select := "SELECT", distinct := "DISTINCT", from_ := "FROM"
        where_ := "WHERE", groupby := "GROUP BY", having := "HAVING"
        orderby := "ORDER BY", limit := "LIMIT", count := "COUNT"
        min := "MIN", max := "MAX", avg := "AVG" } }

/-! ### `DbTable` and the SELECT builder -/

/-- The per-table configuration of a `DbTable` façade: the table name,
primary-key settings (`__init__`, tbltalk.py lines 167-176), the engine's
dialect and the DB-API paramstyle of the engine's driver. -/
structure DbTable where
  table_name : String
  pk_field : String
  pk_autonumber : Bool
  dialect : Dialect
  paramstyle : String
deriving DecidableEq, Repr

/-- A `DbTable` over the sql92 dialect with a qmark-style driver, the
configuration exercised by the claims. -/
def mkTable (name pk : String) : DbTable :=
  { table_name := name, pk_field := pk, pk_autonumber := true
    dialect := sql92_dialect, paramstyle := "qmark" }

/-- `DbTable.sqlparam(name, index)` (tbltalk.py lines 588-592). -/
def DbTable.sqlparam (t : DbTable) (name : String) (index : Nat) :
    Except PyErr String :=
  Tbltalk.sqlparam t.paramstyle (Option.some name) (.int index)

/-- All-strings view of a Python list, for `", ".join(cols)`: joining a
list with a non-string element raises `TypeError`. -/
def allStrs : List PyV → Option (List String)
  | [] => Option.some []
  | .str s :: rest => (allStrs rest).map (fun l => s :: l)
  | _ => Option.none

/-- `check_cols` from `_create_select_sql_impl` (tbltalk.py lines
374-381): normalize a columns argument (`cols or ""`, join a sequence
with `", "`), then raise on the injection heuristic characters. -/
def check_cols (cols : PyV) : Except PyErr String :=
  let joined : Except PyErr String :=
    match cols with
    | .none => .ok ""
    | .str s => .ok s
    | .list l =>
      match allStrs l with
      | Option.some strs => .ok (pyJoin ", " strs)
      | Option.none => .error .typeError
    | .int i => if i = 0 then .ok "" else .error .typeError
    | .bool b => if b then .error .typeError else .ok ""
  match joined with
  | .error e => .error e
  | .ok r => if hasBad r then .error .sqlInjection else .ok r

/-- `sqlpart(keyword, clause)` (tbltalk.py lines 383-387): the empty
string for `None` or `""`, else `" {keyword} {clause}"`. -/
def sqlpart (keyword : String) (clause : PyV) : String :=
  match clause with
  | .none => ""
  | .str s => if s = "" then "" else " " ++ keyword ++ " " ++ s
  | c => " " ++ keyword ++ " " ++ pyStr c

/-- `DbTable._create_select_sql_impl` (tbltalk.py lines 370-403):
check/normalize `columns`, `orderby`, `groupby` (in the source's order),
render each optional clause with its dialect keyword and fill the
template with `safeformat`. -/
def _create_select_sql_impl (t : DbTable) (select_sqlfmt : String)
    (columns distinct : PyV) (table : String)
    (wher groupby having orderby limit : PyV) : Except PyErr String :=
  match check_cols columns with
  | .error e => .error e
  | .ok cS =>
    match check_cols orderby with
    | .error e => .error e
    | .ok oS =>
      match check_cols groupby with
      | .error e => .error e
      | .ok gS =>
        let kw := t.dialect.keywords
        let distinctS := if pyTruthy distinct then " " ++ kw.distinct else ""
        let whereS := sqlpart kw.where_ wher
        let groupbyS := sqlpart kw.groupby (.str gS)
        let havingS := sqlpart kw.having having
        let orderbyS := sqlpart kw.orderby (.str oS)
        let limitS := sqlpart kw.limit limit
        .ok (safeformat select_sqlfmt
          [("distinct", distinctS), ("columns", cS), ("table", table),
           ("where", whereS), ("groupby", groupbyS), ("having", havingS),
           ("orderby", orderbyS), ("limit", limitS)])

/-- `DbTable.create_select_sql` (tbltalk.py lines 359-368): the impl
applied to the dialect's `select_sql` template and the bound table name.
Python defaults: `columns="*"`, `distinct=False`, the rest `None`. -/
def create_select_sql (t : DbTable)
    (columns distinct wher groupby having orderby limit : PyV) :
    Except PyErr String :=
  _create_select_sql_impl t t.dialect.select_sql columns distinct
    t.table_name wher groupby having orderby limit

/-! ### Execution helpers (`query` / `scalar`)

Database I/O is abstracted by passing the cursor behaviour explicitly:
`fetchone sql params` is the row `cur.fetchone()` would return after
`cur.execute(sql, params)` (a row is a tuple of values), and
`dbquery sql params` is the list of rows the `query` generator would
yield. -/

/-- `DbTable.scalar` (tbltalk.py lines 203-211): execute and return the
first column of the first row, or `None` when there is no row or the row
is empty (`len(result) == 0`). -/
def scalar (fetchone : String → List PyV → Option (List PyV))
    (sql : String) (params : List PyV) : Option PyV :=
  match fetchone sql params with
  | Option.none => Option.none
  | Option.some [] => Option.none
  | Option.some (x :: _) => Option.some x

/-- `DbTable._agg` (tbltalk.py lines 455-458): build
`"{agg_fn}({column}) aggfield1"` as the columns of a SELECT with the
given WHERE and fetch a scalar. -/
def _agg (t : DbTable) (fetchone : String → List PyV → Option (List PyV))
    (agg_fn column : String) (wher : PyV) (params : List PyV) :
    Except PyErr (Option PyV) :=
  let columns := agg_fn ++ "(" ++ column ++ ") aggfield1"
  match create_select_sql t (.str columns) (.bool false) wher
      .none .none .none .none with
  | .error e => .error e
  | .ok sql => .ok (scalar fetchone sql params)

/-- `DbTable.count` (tbltalk.py lines 428-432); Python defaults are
`column="*"`, `distinct_count=False`, `where=None`, `params=()`. -/
def DbTable.count (t : DbTable)
    (fetchone : String → List PyV → Option (List PyV))
    (column : String) (distinct_count : Bool) (wher : PyV)
    (params : List PyV) : Except PyErr (Option PyV) :=
  let column := if distinct_count
    then t.dialect.keywords.distinct ++ " " ++ column else column
  _agg t fetchone t.dialect.keywords.count column wher params

/-- `DbTable.avg` (tbltalk.py lines 434-439). -/
def DbTable.avg (t : DbTable)
    (fetchone : String → List PyV → Option (List PyV))
    (column : String) (wher : PyV) (params : List PyV) :
    Except PyErr (Option PyV) :=
  _agg t fetchone t.dialect.keywords.avg column wher params

/-- `DbTable.min` (tbltalk.py lines 441-446). -/
def DbTable.min (t : DbTable)
    (fetchone : String → List PyV → Option (List PyV))
    (column : String) (wher : PyV) (params : List PyV) :
    Except PyErr (Option PyV) :=
  _agg t fetchone t.dialect.keywords.min column wher params

/-- `DbTable.max` (tbltalk.py lines 448-453). -/
def DbTable.max (t : DbTable)
    (fetchone : String → List PyV → Option (List PyV))
    (column : String) (wher : PyV) (params : List PyV) :
    Except PyErr (Option PyV) :=
  _agg t fetchone t.dialect.keywords.max column wher params

/-! ### `DbTable.paged` -/

/-- The values stored in the `DotDict` that `paged` returns. -/
inductive PagedVal (ρ : Type) where
  | scalarV (v : Option PyV)
  | intV (i : Int)
  | rowsV (rs : List ρ)

/-- Generic first-match lookup in an association list (dict access on the
result of `paged`). -/
def pylookupV {α : Type} : List (String × α) → String → Option α
  | [], _ => Option.none
  | (k, v) :: rest, q => if k = q then Option.some v else pylookupV rest q

/-- `DbTable.paged` (tbltalk.py lines 460-488): run the dialect's COUNT
template over a `"1 one"` subquery for `total_records`, render the paging
template with `page_start = (current_page - 1) * page_size`, and return a
`DotDict` with keys `total_records`, `page_size`, `current_page`,
`records` (in assignment order).  The final `str.format` of the source is
rendered with `safeformat`; both substitute the `page_size`/`page_start`/
`current_page` tokens, the only ones left in the template. -/
def paged {ρ : Type} (t : DbTable)
    (fetchone : String → List PyV → Option (List PyV))
    (dbquery : String → List PyV → List ρ)
    (columns distinct wher groupby having orderby : PyV)
    (page_size current_page : Int) (params : List PyV) :
    Except PyErr (List (String × PagedVal ρ)) :=
  match create_select_sql t (.str "1 one") distinct wher groupby having
      .none .none with
  | .error e => .error e
  | .ok subquery =>
    let countsql := safeformat t.dialect.paging.1 [("subquery", subquery)]
    let total_records := scalar fetchone countsql params
    let page_start := (current_page - 1) * page_size
    match _create_select_sql_impl t t.dialect.paging.2 columns distinct
        t.table_name wher groupby having orderby .none with
    | .error e => .error e
    | .ok pagingsql₀ =>
      let pagingsql := safeformat pagingsql₀
        [("page_size", toString page_size), ("page_start", toString page_start),
         ("current_page", toString current_page)]
      .ok [("total_records", .scalarV total_records),
           ("page_size", .intV page_size),
           ("current_page", .intV current_page),
           ("records", .rowsV (dbquery pagingsql params))]

/-! ### `DbTable.dynamicquery` (tbltalk.py lines 514-586) -/

/-- The `select_parts` dict plus the accumulating `constraints`, `params`
and `counter` of the keyword-classification loop. -/
structure DqState where
  columns : PyV
  distinct : PyV
  where_ : PyV
  groupby : PyV
  having : PyV
  orderby : PyV
  limit : PyV
  constraints : List String
  params : List PyV
  counter : Nat

/-- The initial `select_parts` (tbltalk.py lines 520-528). -/
def dqInit : DqState :=
  { columns := .str "*", distinct := .bool false, where_ := .none
    groupby := .none, having := .none, orderby := .none, limit := .none
    constraints := [], params := [], counter := 0 }

/-- One iteration of the keyword loop (tbltalk.py lines 551-563): `params`
extends the parameter list, a `select_parts` key or one of the aliases
(`column`/`select` → `columns`, `top` → `limit`) overrides that part, and
any other key synthesizes a `{key} = {placeholder}` equality constraint. -/
def dqStep (t : DbTable) (k : String) (v : PyV) (st : DqState) :
    Except PyErr DqState :=
  if k = "params" then
    match v with
    | .list l => .ok { st with params := st.params ++ l }
    | .str s => .ok { st with params :=
        st.params ++ s.data.map (fun c => PyV.str (String.singleton c)) }
    | _ => .error .typeError
  else if k = "columns" then .ok { st with columns := v }
  else if k = "distinct" then .ok { st with distinct := v }
  else if k = "where" then .ok { st with where_ := v }
  else if k = "groupby" then .ok { st with groupby := v }
  else if k = "having" then .ok { st with having := v }
  else if k = "orderby" then .ok { st with orderby := v }
  else if k = "limit" then .ok { st with limit := v }
  else if k = "column" then .ok { st with columns := v }
  else if k = "select" then .ok { st with columns := v }
  else if k = "top" then .ok { st with limit := v }
  else
    match sqlparam t.paramstyle (Option.some k) (.int st.counter) with
    | .error e => .error e
    | .ok p => .ok { st with
        constraints := st.constraints ++ [k ++ " = " ++ p],
        params := st.params ++ [v],
        counter := st.counter + 1 }

/-- The keyword loop over all (lower-cased) keyword arguments. -/
def dqLoop (t : DbTable) : List (String × PyV) → DqState → Except PyErr DqState
  | [], st => .ok st
  | (k, v) :: rest, st =>
    match dqStep t k v st with
    | .error e => .error e
    | .ok st' => dqLoop t rest st'

/-- Insert-or-replace for string-keyed association lists: the behaviour
of assigning into a Python dict (an existing key keeps its position and
gets the new value; a new key is appended). -/
def setKey : List (String × PyV) → String → PyV → List (String × PyV)
  | [], k, v => [(k, v)]
  | (k₀, v₀) :: rest, k, v =>
    if k₀ = k then (k₀, v) :: rest else (k₀, v₀) :: setKey rest k v

/-- `{k.lower(): v for k, v in kwargs.items()}` (tbltalk.py line 547). -/
def lcKwargs (kwargs : List (String × PyV)) : List (String × PyV) :=
  kwargs.foldl (fun acc kv => setKey acc (pyLower kv.1) kv.2) []

/-- `one_result_methods` (tbltalk.py lines 536-542): prefix → orderby
direction suffix. -/
def one_result_methods : List (String × String) :=
  [("single", ""), ("one", ""), ("fetchone", ""), ("first", ""), ("last", " DESC")]

/-- Python `+=` as applied to `select_parts['orderby']` (tbltalk.py line
580): string concatenation on a `str`, but on a `list` it extends the
list with EACH CHARACTER of the right-hand string (Python's
`list.__iadd__` iterates its argument); on other types it is a
`TypeError`. -/
def pyIadd : PyV → String → Except PyErr PyV
  | .str a, s => .ok (.str (a ++ s))
  | .list l, s => .ok (.list (l ++ s.data.map (fun c => PyV.str (String.singleton c))))
  | _, _ => .error .typeError

/-- The statement a `dynamicquery` call builds, together with the fetch
shape it will execute (`is_one`: return the first row only). -/
structure DqPlan where
  sql : String
  params : List PyV
  is_one : Bool

/-- Method-name classification and statement construction, the tail of
`dynamicquery` (tbltalk.py lines 576-586): `found`, computed by filtering
`one_result_methods` on `method_name.startswith`, decides between a
one-result query (orderby extended with the direction via Python `+=`,
`limit` forced to `1`, first row fetched) and a plain list query. -/
def dqClassify (t : DbTable) (m : String) (st₂ : DqState) :
    Except PyErr DqPlan :=
  match one_result_methods.filter (fun p => pyStartsWith m p.1) with
  | [] =>
    match create_select_sql t st₂.columns st₂.distinct st₂.where_
        st₂.groupby st₂.having st₂.orderby st₂.limit with
    | .error e => .error e
    | .ok sql => .ok ⟨sql, st₂.params, false⟩
  | (_, dir) :: _ =>
    match pyIadd st₂.orderby dir with
    | .error e => .error e
    | .ok ob =>
      match create_select_sql t st₂.columns st₂.distinct st₂.where_
          st₂.groupby st₂.having ob (.int 1) with
      | .error e => .error e
      | .ok sql => .ok ⟨sql, st₂.params, true⟩

/-- The `orderby` default, `dynamicquery` lines 573-574: a falsy
`orderby` becomes the singleton list `[self.pk_field]`. -/
def dqOrder (t : DbTable) (m : String) (st₁ : DqState) :
    Except PyErr DqPlan :=
  dqClassify t m (if !(pyTruthy st₁.orderby) then
    { st₁ with orderby := .list [.str t.pk_field] } else st₁)

/-- The conflict check and constraint join, `dynamicquery` lines
565-571: a truthy explicit `where` together with synthesized constraints
raises; otherwise the constraints (if any) are joined with `" AND "` into
the `where` part. -/
def dqFinish (t : DbTable) (m : String) (st : DqState) :
    Except PyErr DqPlan :=
  if pyTruthy st.where_ && !st.constraints.isEmpty then
    .error .mixedWhereAndConstraints
  else
    dqOrder t m (if !st.constraints.isEmpty then
      { st with where_ := .str (pyJoin " AND " st.constraints) } else st)

/-- `DbTable.dynamicquery` (tbltalk.py lines 514-586) up to execution:
reject positional args, lower-case the method name, run the keyword
classification loop, and finish with the conflict check, orderby default
and method-name classification stages above. -/
def dynamicquery (t : DbTable) (method_name : String) (nargs : Nat)
    (kwargs : List (String × PyV)) : Except PyErr DqPlan :=
  if nargs ≠ 0 then .error .positionalArgsNotAllowed
  else
    match dqLoop t (lcKwargs kwargs) dqInit with
    | .error e => .error e
    | .ok st => dqFinish t (pyLower method_name) st

/-- The result of running a dynamic query: the first matching record (or
none) for one-result methods, else the full record list. -/
inductive DqOut (ρ : Type) where
  | one (r : Option ρ)
  | many (rs : List ρ)

/-- `dynamicquery` including execution (tbltalk.py lines 579-586):
`first(self.query(...))` for one-result methods, `list(self.query(...))`
otherwise. -/
def dynamicrun {ρ : Type} (t : DbTable)
    (dbquery : String → List PyV → List ρ) (method_name : String)
    (nargs : Nat) (kwargs : List (String × PyV)) :
    Except PyErr (DqOut ρ) :=
  match dynamicquery t method_name nargs kwargs with
  | .error e => .error e
  | .ok plan =>
    if plan.is_one then .ok (.one (first (dbquery plan.sql plan.params)))
    else .ok (.many (dbquery plan.sql plan.params))

/-- `re.match` of the `_re_dynamic_methods` pattern
`"single|one|first|last|(find|get)(_by)?"` (tbltalk.py lines 174-175):
it succeeds exactly when the name starts with one of the six literals
(the `(_by)?` suffix is optional, so it adds nothing). -/
def re_dynamic_methods_match (name : String) : Bool :=
  pyStartsWith name "single" || pyStartsWith name "one" ||
  pyStartsWith name "first" || pyStartsWith name "last" ||
  pyStartsWith name "find" || pyStartsWith name "get"

/-- `DbTable.__getattr__` followed by calling the returned `runit`
(tbltalk.py lines 499-512): unmatched names raise `AttributeError`; any
exception from `dynamicquery` is wrapped in a `RuntimeError` naming the
method. -/
def getattr_call (t : DbTable) (name : String) (nargs : Nat)
    (kwargs : List (String × PyV)) : Except PyErr DqPlan :=
  if ¬ re_dynamic_methods_match name then .error (.attributeError name)
  else
    match dynamicquery t name nargs kwargs with
    | .error e => .error (.methodNotFound name e)
    | .ok p => .ok p

/-! ### `unshoutcase` (dbdialect.py lines 92-104)

`unshoutcase` operates on the raw dialect dictionary, whose values are
strings, nested dicts, tuples of strings (`paging`) or `None`
(`get_last_inserted_id`); `DVal` models those values. -/

/-- A value of the raw dialect dictionary. -/
inductive DVal where
  | str (s : String)
  | dict (d : List (String × DVal))
  | tup (l : List DVal)
  | none

mutual

/-- `unshoutcase(dialect)`: lower-case every string value, recurse into
dict values, and keep any other value (tuples, `None`) unchanged. -/
def unshoutcase : List (String × DVal) → List (String × DVal)
  | [] => []
  | (k, v) :: rest => (k, unshoutVal v) :: unshoutcase rest

/-- The per-value branch of the `unshoutcase` loop
(`isinstance(value, str)` / `isinstance(value, dict)` / else). -/
def unshoutVal : DVal → DVal
  | .str s => .str (pyLower s)
  | .dict d => .dict (unshoutcase d)
  | v => v

end

mutual

/-- Is every string leaf (including those inside tuples and nested
dicts) lower-case?  This is the property the spec ascribes to
`unshoutcase`'s output. -/
def dvalAllLower : DVal → Bool
  | .str s => pyLower s == s
  | .dict d => dictAllLower d
  | .tup l => tupAllLower l
  | .none => true

/-- `dvalAllLower` over all values of a dict. -/
def dictAllLower : List (String × DVal) → Bool
  | [] => true
  | (_, v) :: rest => dvalAllLower v && dictAllLower rest

/-- `dvalAllLower` over all elements of a tuple. -/
def tupAllLower : List DVal → Bool
  | [] => true
  | v :: rest => dvalAllLower v && tupAllLower rest

end

/-- Generic first-match lookup in a `DVal` dictionary. -/
def dlookup : List (String × DVal) → String → Option DVal
  | [], _ => Option.none
  | (k, v) :: rest, q => if k = q then Option.some v else dlookup rest q

/-- The raw `sql92_dialect` dictionary (dbdialect.py lines 1-35), in
source order, as consumed by `unshoutcase`. -/
def sql92_dialect_dict : List (String × DVal) :=
  [("dialect", .str "sql"),
   ("insert_sql", .str "INSERT INTO {table} ({columns}) VALUES ({values})"),
   ("select_sql", .str "SELECT{distinct} {columns} FROM {table}{where}{groupby}{having}{orderby}{limit}"),
   ("update_sql", .str "UPDATE {table} SET {set_columns}"),
   ("delete_sql", .str "DELETE FROM {table}"),
   ("column_schema", .str "SELECT * FROM INFORMATION_SCHEMA.COLUMNS WHERE TABLE_NAME = {table}"),
   ("column_schema_2part", .str "SELECT * FROM INFORMATION_SCHEMA.COLUMNS WHERE TABLE_NAME = {table} AND TABLE_SCHEMA = {schema}"),
   ("get_last_inserted_id", .none),
   ("paging", .tup
     [.str "SELECT COUNT(*) FROM ({subquery}) x",
      .str "SELECT {columns} FROM {table}{where}{groupby}{having}{orderby} LIMIT {page_size} OFFSET {page_start}"]),
   ("keywords", .dict
     [("select", .str "SELECT"), ("distinct", .str "DISTINCT"),
      ("from", .str "FROM"), ("where", .str "WHERE"),
      ("groupby", .str "GROUP BY"), ("having", .str "HAVING"),
      ("orderby", .str "ORDER BY"), ("limit", .str "LIMIT"),
      ("count", .str "COUNT"), ("min", .str "MIN"),
      ("max", .str "MAX"), ("avg", .str "AVG")])]

/-! ### Helper lemmas -/

/-- The token decomposition of the sql92 SELECT template. -/
lemma parse_sql92 : parseFmtAux (sql92_dialect.select_sql.data.length + 1)
    sql92_dialect.select_sql.data =
    [Tok.lit "SELECT", Tok.key "distinct", Tok.lit " ", Tok.key "columns",
     Tok.lit " FROM ", Tok.key "table", Tok.key "where", Tok.key "groupby",
     Tok.key "having", Tok.key "orderby", Tok.key "limit"] := by decide

/-- Rendering the sql92 SELECT template is concatenation of the clause
strings in template order. -/
lemma safeformat_sql92 (dS cS table wS gS hS oS lS : String) :
    safeformat sql92_dialect.select_sql
      [("distinct", dS), ("columns", cS), ("table", table), ("where", wS),
       ("groupby", gS), ("having", hS), ("orderby", oS), ("limit", lS)]
    = "SELECT" ++ dS ++ " " ++ cS ++ " FROM " ++ table ++ wS ++ gS ++ hS ++
      oS ++ lS := by
  unfold safeformat
  rw [parse_sql92]
  simp [renderTok, pylookup, concatAll, String.append_assoc, String.append_empty]

lemma mkTable_dialect (n p : String) : (mkTable n p).dialect = sql92_dialect := rfl

lemma mkTable_table_name (n p : String) : (mkTable n p).table_name = n := rfl

/-- The SELECT builder over the sql92 dialect, given that the three
checked arguments normalize successfully, renders the clauses in the
fixed template order. -/
lemma create_select_sql_mk (name pk : String)
    (columns distinct wher groupby having orderby limit : PyV)
    (cS oS gS : String)
    (hc : check_cols columns = .ok cS) (ho : check_cols orderby = .ok oS)
    (hg : check_cols groupby = .ok gS) :
    create_select_sql (mkTable name pk) columns distinct wher groupby having
      orderby limit =
      .ok ("SELECT" ++ (if pyTruthy distinct then " DISTINCT" else "") ++ " " ++
        cS ++ " FROM " ++ name ++ sqlpart "WHERE" wher ++
        sqlpart "GROUP BY" (.str gS) ++ sqlpart "HAVING" having ++
        sqlpart "ORDER BY" (.str oS) ++ sqlpart "LIMIT" limit) := by
  unfold create_select_sql _create_select_sql_impl
  rw [mkTable_dialect, mkTable_table_name, hc, ho, hg]
  show Except.ok (safeformat _ _) = _
  rw [safeformat_sql92]
  rfl

/-- Inversion of a successful SELECT build: the three checks passed and
the result has the canonical clause-ordered shape. -/
lemma create_select_sql_mk_inv (name pk : String)
    (columns distinct wher groupby having orderby limit : PyV) (sql : String)
    (h : create_select_sql (mkTable name pk) columns distinct wher groupby
      having orderby limit = .ok sql) :
    ∃ cS oS gS, check_cols columns = .ok cS ∧ check_cols orderby = .ok oS ∧
      check_cols groupby = .ok gS ∧
      sql = "SELECT" ++ (if pyTruthy distinct then " DISTINCT" else "") ++ " " ++
        cS ++ " FROM " ++ name ++ sqlpart "WHERE" wher ++
        sqlpart "GROUP BY" (.str gS) ++ sqlpart "HAVING" having ++
        sqlpart "ORDER BY" (.str oS) ++ sqlpart "LIMIT" limit := by
  cases hc : check_cols columns with
  | error e =>
    unfold create_select_sql _create_select_sql_impl at h
    rw [hc] at h; exact absurd h (by simp)
  | ok cS =>
    cases ho : check_cols orderby with
    | error e =>
      unfold create_select_sql _create_select_sql_impl at h
      rw [hc, ho] at h; exact absurd h (by simp)
    | ok oS =>
      cases hg : check_cols groupby with
      | error e =>
        unfold create_select_sql _create_select_sql_impl at h
        rw [hc, ho, hg] at h; exact absurd h (by simp)
      | ok gS =>
        refine ⟨cS, oS, gS, rfl, rfl, rfl, ?_⟩
        rw [create_select_sql_mk name pk columns distinct wher groupby having
          orderby limit cS oS gS hc ho hg] at h
        injection h with h2
        exact h2.symm

/-- A `dqStep` on a key other than `"orderby"` leaves the orderby part
unchanged. -/
lemma dqStep_orderby (t : DbTable) (k : String) (v : PyV) (st st' : DqState)
    (hk : k ≠ "orderby") (h : dqStep t k v st = .ok st') :
    st'.orderby = st.orderby := by
  unfold dqStep at h
  by_cases h1 : k = "params"
  · rw [if_pos h1] at h
    cases v <;> dsimp only [] at h <;>
      first
        | (injection h with h'; rw [← h'])
        | injection h
  rw [if_neg h1] at h
  by_cases h2 : k = "columns"
  · rw [if_pos h2] at h; injection h with h'; rw [← h']
  rw [if_neg h2] at h
  by_cases h3 : k = "distinct"
  · rw [if_pos h3] at h; injection h with h'; rw [← h']
  rw [if_neg h3] at h
  by_cases h4 : k = "where"
  · rw [if_pos h4] at h; injection h with h'; rw [← h']
  rw [if_neg h4] at h
  by_cases h5 : k = "groupby"
  · rw [if_pos h5] at h; injection h with h'; rw [← h']
  rw [if_neg h5] at h
  by_cases h6 : k = "having"
  · rw [if_pos h6] at h; injection h with h'; rw [← h']
  rw [if_neg h6] at h
  by_cases h7 : k = "orderby"
  · exact absurd h7 hk
  rw [if_neg h7] at h
  by_cases h8 : k = "limit"
  · rw [if_pos h8] at h; injection h with h'; rw [← h']
  rw [if_neg h8] at h
  by_cases h9 : k = "column"
  · rw [if_pos h9] at h; injection h with h'; rw [← h']
  rw [if_neg h9] at h
  by_cases h10 : k = "select"
  · rw [if_pos h10] at h; injection h with h'; rw [← h']
  rw [if_neg h10] at h
  by_cases h11 : k = "top"
  · rw [if_pos h11] at h; injection h with h'; rw [← h']
  rw [if_neg h11] at h
  cases hq : sqlparam t.paramstyle (Option.some k) (.int st.counter) <;>
    rw [hq] at h <;> dsimp only [] at h <;>
    first
      | (injection h with h'; rw [← h'])
      | injection h

/-- The keyword loop leaves the orderby part unchanged when no processed
key is `"orderby"`. -/
lemma dqLoop_orderby (t : DbTable) (kws : List (String × PyV)) :
    ∀ (st st' : DqState), (∀ p ∈ kws, p.1 ≠ "orderby") →
      dqLoop t kws st = .ok st' → st'.orderby = st.orderby := by
  induction kws with
  | nil => intro st st' _ h; injection h with h'; rw [← h']
  | cons p rest ih =>
    intro st st' hk h
    unfold dqLoop at h
    cases hs : dqStep t p.1 p.2 st with
    | error e => rw [hs] at h; exact absurd h (by simp)
    | ok st₁ =>
      rw [hs] at h
      have h₁ : st₁.orderby = st.orderby :=
        dqStep_orderby t p.1 p.2 st st₁ (hk p (List.mem_cons_self p rest)) hs
      have h₂ : st'.orderby = st₁.orderby :=
        ih st₁ st' (fun q hq => hk q (List.mem_cons_of_mem p hq)) h
      rw [h₂, h₁]

/-- Every key of `setKey l k v` is a key of `l` or is `k`. -/
lemma setKey_keys (l : List (String × PyV)) (k : String) (v : PyV) :
    ∀ p ∈ setKey l k v, (∃ q ∈ l, p.1 = q.1) ∨ p.1 = k := by
  induction l with
  | nil => intro p hp; simp [setKey] at hp; right; rw [hp]
  | cons q₀ rest ih =>
    intro p hp
    unfold setKey at hp
    split_ifs at hp with he
    · rcases List.mem_cons.mp hp with h | h
      · left; exact ⟨q₀, List.mem_cons_self q₀ rest, by rw [h]⟩
      · left; exact ⟨p, List.mem_cons_of_mem q₀ h, rfl⟩
    · rcases List.mem_cons.mp hp with h | h
      · left; exact ⟨q₀, List.mem_cons_self q₀ rest, by rw [h]⟩
      · rcases ih p h with ⟨q, hq, he2⟩ | he2
        · left; exact ⟨q, List.mem_cons_of_mem q₀ hq, he2⟩
        · right; exact he2

/-- Generalized key-origin lemma for the `lcKwargs` fold. -/
lemma lcKwargs_aux (kws : List (String × PyV)) :
    ∀ (acc : List (String × PyV)) (p : String × PyV),
      p ∈ kws.foldl (fun a kv => setKey a (pyLower kv.1) kv.2) acc →
      (∃ q ∈ acc, p.1 = q.1) ∨ ∃ q ∈ kws, p.1 = pyLower q.1 := by
  induction kws with
  | nil => intro acc p hp; left; exact ⟨p, hp, rfl⟩
  | cons kv rest ih =>
    intro acc p hp
    rcases ih (setKey acc (pyLower kv.1) kv.2) p hp with ⟨q, hq, he⟩ | ⟨q, hq, he⟩
    · rcases setKey_keys acc (pyLower kv.1) kv.2 q hq with ⟨q₂, hq₂, he₂⟩ | he₂
      · left; exact ⟨q₂, hq₂, he.trans he₂⟩
      · right; exact ⟨kv, List.mem_cons_self kv rest, he.trans he₂⟩
    · right; exact ⟨q, List.mem_cons_of_mem kv hq, he⟩

/-- Every key of `lcKwargs kwargs` is the lower-casing of a key of
`kwargs`. -/
lemma lcKwargs_keys (kwargs : List (String × PyV)) (p : String × PyV)
    (hp : p ∈ lcKwargs kwargs) : ∃ q ∈ kwargs, p.1 = pyLower q.1 := by
  rcases lcKwargs_aux kwargs [] p hp with ⟨q, hq, _⟩ | h
  · exact absurd hq (List.not_mem_nil q)
  · exact h

/-- Joining a nonempty list with `", "` yields its head followed by a
remainder. -/
lemma pyJoin_comma_cons (x : String) (xs : List String) :
    ∃ r, pyJoin ", " (x :: xs) = x ++ r := by
  cases xs with
  | nil => exact ⟨"", (String.append_empty x).symm⟩
  | cons y ys =>
    refine ⟨", " ++ pyJoin ", " (y :: ys), ?_⟩
    show x ++ ", " ++ _ = _
    rw [String.append_assoc]

/-- `allStrs` succeeds on a list of string values built by mapping. -/
lemma allStrs_map_str (f : Char → String) (cs : List Char) :
    allStrs (cs.map (fun c => PyV.str (f c))) = Option.some (cs.map f) := by
  induction cs with
  | nil => rfl
  | cons c rest ih => simp [allStrs, ih]

/-- Appending to a nonempty string cannot produce the empty string. -/
lemma str_append_ne_empty (a b : String) (ha : a ≠ "") : a ++ b ≠ "" := by
  intro h
  apply ha
  have h2 : (a ++ b).data = ("" : String).data := congrArg String.data h
  rw [String.data_append] at h2
  rcases List.append_eq_nil.mp h2 with ⟨h3, _⟩
  exact String.ext h3

/-- `check_cols` on a plain string only runs the injection check. -/
lemma check_cols_str (s : String) :
    check_cols (.str s) = if hasBad s then .error .sqlInjection else .ok s := rfl

/-- A successful `check_cols` on a string-list headed by `x` yields a
normalization that starts with `x`. -/
lemma check_cols_cons_str (x : String) (rest : List PyV) (restS : List String)
    (oS : String) (hr : allStrs rest = Option.some restS)
    (h : check_cols (.list (.str x :: rest)) = .ok oS) : ∃ r, oS = x ++ r := by
  unfold check_cols at h
  dsimp only [] at h
  rw [show allStrs (PyV.str x :: rest) = Option.some (x :: restS) from by
    simp [allStrs, hr]] at h
  dsimp only [] at h
  by_cases hb : hasBad (pyJoin ", " (x :: restS)) = true
  · rw [if_pos hb] at h; injection h
  · rw [if_neg hb] at h
    injection h with h'
    rcases pyJoin_comma_cons x restS with ⟨r, hjoin⟩
    exact ⟨r, h'.symm.trans hjoin⟩

/-- When the classification stage receives `orderby = [pk]`, any plan it
produces carries `" ORDER BY " ++ pk` inside its SQL (both for list
queries and for one-result queries, whose `+=` keeps the head `pk`). -/
lemma dqClassify_orderby_pk (name pk m : String) (st₂ : DqState) (plan : DqPlan)
    (hob : st₂.orderby = .list [.str pk]) (hpk : pk ≠ "")
    (h : dqClassify (mkTable name pk) m st₂ = .ok plan) :
    ∃ pre post, plan.sql = pre ++ (" ORDER BY " ++ pk) ++ post := by
  unfold dqClassify at h
  cases hf : one_result_methods.filter (fun p => pyStartsWith m p.1) with
  | nil =>
    rw [hf] at h
    dsimp only [] at h
    cases hcs : create_select_sql (mkTable name pk) st₂.columns st₂.distinct
        st₂.where_ st₂.groupby st₂.having st₂.orderby st₂.limit with
    | error e => rw [hcs] at h; injection h
    | ok sql =>
      rw [hcs] at h
      injection h with h'
      rw [hob] at hcs
      rcases create_select_sql_mk_inv name pk _ _ _ _ _ _ _ _ hcs with
        ⟨cS, oS, gS, hc, ho, hg, hsql⟩
      have hx : ∃ r, oS = pk ++ r := by
        refine check_cols_cons_str pk ([].map (fun c => PyV.str (String.singleton c)))
          ([].map String.singleton) oS ?_ ?_
        · exact allStrs_map_str String.singleton []
        · exact ho
      rcases hx with ⟨r, hoS⟩
      refine ⟨"SELECT" ++ (if pyTruthy st₂.distinct then " DISTINCT" else "") ++ " " ++
        cS ++ " FROM " ++ name ++ sqlpart "WHERE" st₂.where_ ++
        sqlpart "GROUP BY" (.str gS) ++ sqlpart "HAVING" st₂.having,
        r ++ sqlpart "LIMIT" st₂.limit, ?_⟩
      rw [← h', hsql, hoS]
      rw [show sqlpart "ORDER BY" (.str (pk ++ r)) = " ORDER BY " ++ (pk ++ r) from by
        unfold sqlpart
        dsimp only []
        rw [if_neg (str_append_ne_empty pk r hpk)]
        rfl]
      simp [String.append_assoc]
  | cons hd tl =>
    rw [hf] at h
    obtain ⟨k0, dir⟩ := hd
    dsimp only [] at h
    rw [hob] at h
    dsimp only [pyIadd] at h
    cases hcs : create_select_sql (mkTable name pk) st₂.columns st₂.distinct
        st₂.where_ st₂.groupby st₂.having
        (.list ([.str pk] ++ dir.data.map (fun c => PyV.str (String.singleton c))))
        (.int 1) with
    | error e => rw [hcs] at h; injection h
    | ok sql =>
      rw [hcs] at h
      injection h with h'
      rcases create_select_sql_mk_inv name pk _ _ _ _ _ _ _ _ hcs with
        ⟨cS, oS, gS, hc, ho, hg, hsql⟩
      have hx : ∃ r, oS = pk ++ r := by
        refine check_cols_cons_str pk
          (dir.data.map (fun c => PyV.str (String.singleton c)))
          (dir.data.map String.singleton) oS ?_ ?_
        · exact allStrs_map_str String.singleton dir.data
        · exact ho
      rcases hx with ⟨r, hoS⟩
      refine ⟨"SELECT" ++ (if pyTruthy st₂.distinct then " DISTINCT" else "") ++ " " ++
        cS ++ " FROM " ++ name ++ sqlpart "WHERE" st₂.where_ ++
        sqlpart "GROUP BY" (.str gS) ++ sqlpart "HAVING" st₂.having,
        r ++ sqlpart "LIMIT" (.int 1), ?_⟩
      rw [← h', hsql, hoS]
      rw [show sqlpart "ORDER BY" (.str (pk ++ r)) = " ORDER BY " ++ (pk ++ r) from by
        unfold sqlpart
        dsimp only []
        rw [if_neg (str_append_ne_empty pk r hpk)]
        rfl]
      simp [String.append_assoc]

/-- The orderby-default stage applied to a state with falsy (`None`)
orderby yields a plan whose SQL orders by the primary-key field. -/
lemma dqOrder_none (name pk m : String) (st₁ : DqState) (plan : DqPlan)
    (hob₁ : st₁.orderby = PyV.none) (hpk : pk ≠ "")
    (h : dqOrder (mkTable name pk) m st₁ = .ok plan) :
    ∃ pre post, plan.sql = pre ++ (" ORDER BY " ++ pk) ++ post := by
  unfold dqOrder at h
  rw [show (if !(pyTruthy st₁.orderby) then
      { st₁ with orderby := PyV.list [PyV.str (mkTable name pk).pk_field] } else st₁)
      = { st₁ with orderby := PyV.list [PyV.str pk] } from by rw [hob₁]; rfl] at h
  exact dqClassify_orderby_pk name pk m _ plan rfl hpk h

/-! ### The claims -/

/-- C1: on the sql92 dialect, every successful SELECT build renders the
clauses exactly once each, in the fixed template order SELECT, FROM,
WHERE, GROUP BY, HAVING, ORDER BY, LIMIT, where each absent (`None` or
empty) clause contributes the empty string and each present clause
contributes exactly `" KEYWORD clause"`; with table `"tbl"` and all
other arguments at their Python defaults the result is exactly
`"SELECT * FROM tbl"`. -/
theorem select_sql92_clause_order :
    (∀ (name pk : String) (columns distinct wher groupby having orderby limit : PyV)
       (cS oS gS : String),
       check_cols columns = .ok cS → check_cols orderby = .ok oS →
       check_cols groupby = .ok gS →
       create_select_sql (mkTable name pk) columns distinct wher groupby having orderby limit =
         .ok ("SELECT" ++ (if pyTruthy distinct then " DISTINCT" else "") ++ " " ++ cS ++
           " FROM " ++ name ++ sqlpart "WHERE" wher ++ sqlpart "GROUP BY" (.str gS) ++
           sqlpart "HAVING" having ++ sqlpart "ORDER BY" (.str oS) ++ sqlpart "LIMIT" limit))
    ∧ create_select_sql (mkTable "tbl" "id") (.str "*") (.bool false) .none .none .none .none .none =
        .ok "SELECT * FROM tbl" := by
  constructor
  · intro name pk columns distinct wher groupby having orderby limit cS oS gS hc ho hg
    exact create_select_sql_mk name pk columns distinct wher groupby having orderby
      limit cS oS gS hc ho hg
  · rfl

/-- Witness for C1: a fully-populated SELECT rendered at concrete
arguments through the theorem. -/
theorem select_sql92_clause_order_witness :
    create_select_sql (mkTable "tbl" "id") (.list [.str "a", .str "b"]) (.bool true)
      (.str "c = ?") (.str "g") .none (.str "b DESC") (.int 10) =
      .ok "SELECT DISTINCT a, b FROM tbl WHERE c = ? GROUP BY g ORDER BY b DESC LIMIT 10" :=
  select_sql92_clause_order.1 "tbl" "id" (.list [.str "a", .str "b"]) (.bool true)
    (.str "c = ?") (.str "g") .none (.str "b DESC") (.int 10) "a, b" "b DESC" "g" rfl rfl rfl

/-- C2 counterexample: the dynamic resolver does not classify the
aggregate names.  `sum` does not even match the dynamic-method pattern
(`AttributeError`), and a `dynamicquery` named `count` builds a plain
multi-row `SELECT *` list query (the plan's `is_one` is false, its SQL
contains no `COUNT`), not a `COUNT(*)` scalar fetch as the claim
states. -/
theorem dynamic_aggregates_not_classified :
    getattr_call (mkTable "tbl" "id") "sum" 0 [] = .error (.attributeError "sum")
    ∧ dynamicquery (mkTable "tbl" "id") "count" 0 [] =
        .ok ⟨"SELECT * FROM tbl ORDER BY id", [], false⟩
    ∧ dynamicrun (mkTable "tbl" "id") (fun _ _ => ([1, 2, 3] : List Nat)) "count" 0 [] =
        .ok (.many [1, 2, 3])
    ∧ ¬ List.IsInfix "COUNT".data "SELECT * FROM tbl ORDER BY id".data :=
  ⟨rfl, rfl, rfl, by decide⟩

/-- C2 (amended): the aggregates are explicit `DbTable` methods, not
dynamic-resolver cases: `count`, `max`, `min`, `avg` each build
`SELECT {AGG}({column}) aggfield1 [WHERE ...]` (with `COUNT(*)` from
`count`'s default `column="*"`) and return the scalar fetch of that
statement; `sum` is not provided at all, and a dynamic `count` call is
treated as a plain list query. -/
theorem aggregates_are_explicit_methods :
    (∀ fetchone : String → List PyV → Option (List PyV),
       DbTable.count (mkTable "tbl" "id") fetchone "*" false .none [] =
         .ok (scalar fetchone "SELECT COUNT(*) aggfield1 FROM tbl" []))
    ∧ (∀ fetchone : String → List PyV → Option (List PyV),
       DbTable.max (mkTable "tbl" "id") fetchone "release_year" .none [] =
         .ok (scalar fetchone "SELECT MAX(release_year) aggfield1 FROM tbl" []))
    ∧ (∀ fetchone : String → List PyV → Option (List PyV),
       DbTable.min (mkTable "tbl" "id") fetchone "name" .none [] =
         .ok (scalar fetchone "SELECT MIN(name) aggfield1 FROM tbl" []))
    ∧ (∀ fetchone : String → List PyV → Option (List PyV),
       DbTable.avg (mkTable "tbl" "id") fetchone "age" (.str "a = ?") [.int 1] =
         .ok (scalar fetchone "SELECT AVG(age) aggfield1 FROM tbl WHERE a = ?" [.int 1]))
    ∧ getattr_call (mkTable "tbl" "id") "sum" 0 [] = .error (.attributeError "sum")
    ∧ dynamicquery (mkTable "tbl" "id") "count" 0 [] =
        .ok ⟨"SELECT * FROM tbl ORDER BY id", [], false⟩ :=
  ⟨fun _ => rfl, fun _ => rfl, fun _ => rfl, fun _ => rfl, rfl, rfl⟩

/-- C3: evaluation at the failing input.  A dynamic `last` call with no
explicit orderby extends the default orderby list `["id"]` with the
CHARACTERS of `" DESC"` (Python `list += str`), rendering
`ORDER BY id,  , D, E, S, C` instead of the intended `ORDER BY id DESC`;
the ascending prefixes (`first`, `single`) behave as the claim states,
and a one-result query over an empty table returns none rather than
raising. -/
theorem last_prefix_orderby_chars :
    dynamicquery (mkTable "tbl" "id") "last" 0 [] =
      .ok ⟨"SELECT * FROM tbl ORDER BY id,  , D, E, S, C LIMIT 1", [], true⟩
    ∧ dynamicquery (mkTable "tbl" "id") "first" 0 [] =
      .ok ⟨"SELECT * FROM tbl ORDER BY id LIMIT 1", [], true⟩
    ∧ dynamicquery (mkTable "tbl" "id") "single" 0 [("id", .int 42)] =
      .ok ⟨"SELECT * FROM tbl WHERE id = ? ORDER BY id LIMIT 1", [.int 42], true⟩
    ∧ dynamicrun (mkTable "tbl" "id") (fun _ _ => ([] : List Nat)) "first" 0 [] =
      .ok (.one Option.none) :=
  ⟨rfl, rfl, rfl, rfl⟩

/-- C4: whenever the keyword-classification loop ends with a truthy
explicit `where` and at least one synthesized equality constraint, the
dynamicquery call fails with the mixing error, and no statement is built
or executed (the run result is the same error for every database
behaviour). -/
theorem where_conflict_refuses (t : DbTable) (m : String)
    (kwargs : List (String × PyV)) (st : DqState)
    (hl : dqLoop t (lcKwargs kwargs) dqInit = .ok st)
    (hw : pyTruthy st.where_ = true) (hc : st.constraints ≠ []) :
    dynamicquery t m 0 kwargs = .error .mixedWhereAndConstraints
    ∧ ∀ (ρ : Type) (db : String → List PyV → List ρ),
        dynamicrun t db m 0 kwargs = .error .mixedWhereAndConstraints := by
  have hne : st.constraints.isEmpty = false := by
    cases hcc : st.constraints
    · exact absurd hcc hc
    · rfl
  have hmain : dynamicquery t m 0 kwargs = .error .mixedWhereAndConstraints := by
    unfold dynamicquery
    rw [if_neg (by simp), hl]
    dsimp only []
    unfold dqFinish
    rw [if_pos (by rw [hw, hne]; rfl)]
  refine ⟨hmain, fun ρ db => ?_⟩
  unfold dynamicrun
  rw [hmain]

/-- Witness for C4: `where="a = 1"` together with the unrecognized
keyword `name` raises the mixing error. -/
theorem where_conflict_refuses_witness :
    dynamicquery (mkTable "tbl" "id") "find" 0
      [("where", .str "a = 1"), ("name", .str "bob")] = .error .mixedWhereAndConstraints
    ∧ dynamicrun (mkTable "tbl" "id") (fun _ _ => ([] : List Nat)) "find" 0
      [("where", .str "a = 1"), ("name", .str "bob")] = .error .mixedWhereAndConstraints := by
  have h := where_conflict_refuses (mkTable "tbl" "id") "find"
    [("where", .str "a = 1"), ("name", .str "bob")]
    { columns := .str "*", distinct := .bool false, where_ := .str "a = 1"
      groupby := .none, having := .none, orderby := .none, limit := .none
      constraints := ["name = ?"], params := [.str "bob"], counter := 1 }
    rfl rfl (by simp)
  exact ⟨h.1, h.2 Nat (fun _ _ => [])⟩

/-- C5 counterexample: a negative integer index does not fail —
`sqlparam` only rejects non-`int` indexes, so `-1` is accepted (and even
rendered into the `numeric` placeholder). -/
theorem sqlparam_negative_index_accepted :
    sqlparam "qmark" (Option.some "col") (.int (-1)) = .ok "?"
    ∧ sqlparam "numeric" (Option.some "col") (.int (-1)) = .ok ":-1" :=
  ⟨rfl, rfl⟩

/-- C5 (amended): `sqlparam` fails whenever the index is not a Python
`int` and whenever the (non-empty) name contains `;` or `'`; a negative
integer index is accepted. -/
theorem sqlparam_validation :
    (∀ (ps : String) (name : Option String) (idx : PyV), pyIsInt idx = false →
       sqlparam ps name idx = .error .nonIntegerIndex)
    ∧ (∀ (ps s : String) (idx : PyV), pyIsInt idx = true → s ≠ "" → hasBad s = true →
       sqlparam ps (Option.some s) idx = .error .unsupportedNameValue)
    ∧ sqlparam "qmark" (Option.some "x") (.int (-1)) = .ok "?" := by
  refine ⟨?_, ?_, rfl⟩
  · intro ps name idx h
    unfold sqlparam
    rw [if_pos (by rw [h]; simp)]
  · intro ps s idx h1 h2 h3
    unfold sqlparam
    rw [if_neg (by rw [h1]; simp), if_pos (by simp [h2, h3])]

/-- Witness for C5: a string index and a `;`-carrying name each fail; a
negative integer index succeeds. -/
theorem sqlparam_validation_witness :
    sqlparam "qmark" (Option.some "a") (.str "0") = .error .nonIntegerIndex
    ∧ sqlparam "named" (Option.some "a;b") (.int 0) = .error .unsupportedNameValue
    ∧ sqlparam "qmark" (Option.some "x") (.int (-1)) = .ok "?" :=
  ⟨sqlparam_validation.1 "qmark" (Option.some "a") (.str "0") rfl,
   sqlparam_validation.2.1 "named" "a;b" (.int 0) rfl (by decide) rfl,
   sqlparam_validation.2.2⟩

/-- C6: the SELECT builder scans exactly the three normalized arguments
`columns`, `orderby`, `groupby` (checked in the source's order) for `;`
or `'` and raises the injection error when one matches; `where` and
`having` are not scanned — the build succeeds, rendering them verbatim,
even when they contain those characters. -/
theorem injection_check_cols_only :
    (∀ (name pk s : String) (distinct wher groupby having orderby limit : PyV),
       hasBad s = true →
       create_select_sql (mkTable name pk) (.str s) distinct wher groupby having orderby limit =
         .error .sqlInjection)
    ∧ (∀ (name pk c o : String) (distinct wher groupby having limit : PyV),
       hasBad c = false → hasBad o = true →
       create_select_sql (mkTable name pk) (.str c) distinct wher groupby having (.str o) limit =
         .error .sqlInjection)
    ∧ (∀ (name pk c o g : String) (distinct wher having limit : PyV),
       hasBad c = false → hasBad o = false → hasBad g = true →
       create_select_sql (mkTable name pk) (.str c) distinct wher (.str g) having (.str o) limit =
         .error .sqlInjection)
    ∧ (∀ (name pk c o g w h : String) (distinct limit : PyV),
       hasBad c = false → hasBad o = false → hasBad g = false →
       create_select_sql (mkTable name pk) (.str c) distinct (.str w) (.str g) (.str h) (.str o) limit =
         .ok ("SELECT" ++ (if pyTruthy distinct then " DISTINCT" else "") ++ " " ++ c ++
           " FROM " ++ name ++ sqlpart "WHERE" (.str w) ++ sqlpart "GROUP BY" (.str g) ++
           sqlpart "HAVING" (.str h) ++ sqlpart "ORDER BY" (.str o) ++ sqlpart "LIMIT" limit)) := by
  refine ⟨?_, ?_, ?_, ?_⟩
  · intro name pk s distinct wher groupby having orderby limit h1
    unfold create_select_sql _create_select_sql_impl
    rw [check_cols_str, if_pos h1]
  · intro name pk c o distinct wher groupby having limit h1 h2
    unfold create_select_sql _create_select_sql_impl
    rw [check_cols_str, h1, if_neg (by simp), check_cols_str, if_pos h2]
  · intro name pk c o g distinct wher having limit h1 h2 h3
    unfold create_select_sql _create_select_sql_impl
    rw [check_cols_str, h1, if_neg (by simp), check_cols_str, h2, if_neg (by simp),
      check_cols_str, if_pos h3]
  · intro name pk c o g w h distinct limit h1 h2 h3
    exact create_select_sql_mk name pk (.str c) distinct (.str w) (.str g) (.str h) (.str o)
      limit c o g (by simp [check_cols_str, h1]) (by simp [check_cols_str, h2])
      (by simp [check_cols_str, h3])

/-- Witness for C6: each scanned argument triggers the error at a
concrete bad input, and a WHERE containing both `'` and `;` passes
through unscanned. -/
theorem injection_check_cols_only_witness :
    create_select_sql (mkTable "tbl" "id") (.str "a; DROP TABLE t") (.bool false) .none .none
        .none .none .none = .error .sqlInjection
    ∧ create_select_sql (mkTable "tbl" "id") (.str "*") (.bool false) .none .none .none
        (.str "a'") .none = .error .sqlInjection
    ∧ create_select_sql (mkTable "tbl" "id") (.str "*") (.bool false) .none (.str "g;h") .none
        (.str "o") .none = .error .sqlInjection
    ∧ create_select_sql (mkTable "tbl" "id") (.str "*") (.bool false) (.str "x = 'y'; DROP TABLE t")
        (.str "g") (.str "h") (.str "o") .none =
        .ok "SELECT * FROM tbl WHERE x = 'y'; DROP TABLE t GROUP BY g HAVING h ORDER BY o" :=
  ⟨injection_check_cols_only.1 "tbl" "id" "a; DROP TABLE t" (.bool false) .none .none .none .none .none rfl,
   injection_check_cols_only.2.1 "tbl" "id" "*" "a'" (.bool false) .none .none .none .none rfl rfl,
   injection_check_cols_only.2.2.1 "tbl" "id" "*" "o" "g;h" (.bool false) .none .none .none rfl rfl rfl,
   injection_check_cols_only.2.2.2 "tbl" "id" "*" "o" "g" "x = 'y'; DROP TABLE t" "h" (.bool false) .none rfl rfl rfl⟩

/-- C7: evaluation at the failing input.  With a COUNT of 5 and
`page_size = 2`, the `DotDict` that `paged` returns holds exactly the
keys `total_records`, `page_size`, `current_page`, `records` — there is
no `total_pages` entry at all (the claim requires `total_pages = 3`). -/
theorem paged_lacks_total_pages :
    paged (mkTable "tbl" "id") (fun _ _ => Option.some [.int 5]) (fun _ _ => ([] : List Nat))
      (.str "*") (.bool false) .none .none .none .none 2 1 [] =
      .ok [("total_records", .scalarV (Option.some (.int 5))), ("page_size", .intV 2),
           ("current_page", .intV 1), ("records", .rowsV [])]
    ∧ (paged (mkTable "tbl" "id") (fun _ _ => Option.some [.int 5]) (fun _ _ => ([] : List Nat))
      (.str "*") (.bool false) .none .none .none .none 2 1 []).toOption.map
        (fun r => r.map Prod.fst) =
      Option.some ["total_records", "page_size", "current_page", "records"]
    ∧ pylookupV ((paged (mkTable "tbl" "id") (fun _ _ => Option.some [.int 5])
        (fun _ _ => ([] : List Nat)) (.str "*") (.bool false) .none .none .none .none 2 1
        []).toOption.getD []) "total_pages" = Option.none :=
  ⟨rfl, rfl, rfl⟩

/-- C8 counterexample: `unshoutcase` does not lower-case the strings
inside the `paging` tuple — a tuple is neither a `str` nor a `dict`, so
it is returned unchanged, and the transformed sql92 dialect still
contains upper-case string leaves. -/
theorem unshoutcase_skips_tuples :
    dictAllLower (unshoutcase sql92_dialect_dict) = false
    ∧ dlookup (unshoutcase sql92_dialect_dict) "paging" =
      Option.some (.tup
        [.str "SELECT COUNT(*) FROM ({subquery}) x",
         .str "SELECT {columns} FROM {table}{where}{groupby}{having}{orderby} LIMIT {page_size} OFFSET {page_start}"]) :=
  ⟨rfl, rfl⟩

/-- C8 (amended): `unshoutcase` keeps the structure and keys of the
dialect dict, lower-cases every top-level string value and every string
inside the nested `keywords` dict, and leaves every other value — the
`paging` tuple of templates and the `None` of `get_last_inserted_id` —
unchanged. -/
theorem unshoutcase_sql92_result :
    unshoutcase sql92_dialect_dict =
    [("dialect", .str "sql"),
     ("insert_sql", .str "insert into {table} ({columns}) values ({values})"),
     ("select_sql", .str "select{distinct} {columns} from {table}{where}{groupby}{having}{orderby}{limit}"),
     ("update_sql", .str "update {table} set {set_columns}"),
     ("delete_sql", .str "delete from {table}"),
     ("column_schema", .str "select * from information_schema.columns where table_name = {table}"),
     ("column_schema_2part", .str "select * from information_schema.columns where table_name = {table} and table_schema = {schema}"),
     ("get_last_inserted_id", .none),
     ("paging", .tup
       [.str "SELECT COUNT(*) FROM ({subquery}) x",
        .str "SELECT {columns} FROM {table}{where}{groupby}{having}{orderby} LIMIT {page_size} OFFSET {page_start}"]),
     ("keywords", .dict
       [("select", .str "select"), ("distinct", .str "distinct"),
        ("from", .str "from"), ("where", .str "where"),
        ("groupby", .str "group by"), ("having", .str "having"),
        ("orderby", .str "order by"), ("limit", .str "limit"),
        ("count", .str "count"), ("min", .str "min"),
        ("max", .str "max"), ("avg", .str "avg")])] := rfl

/-- C9: every successful `dynamicquery` whose keyword arguments never
set `orderby` (no key lower-cases to `"orderby"`; no alias maps to it)
produces SQL containing `" ORDER BY " ++ pk_field` — the primary-key
default applies to plain multi-row list queries as well as to
one-result-prefixed names. -/
theorem default_orderby_pk (name pk m : String) (kwargs : List (String × PyV)) (plan : DqPlan)
    (hkw : ∀ p ∈ kwargs, pyLower p.1 ≠ "orderby") (hpk : pk ≠ "")
    (h : dynamicquery (mkTable name pk) m 0 kwargs = .ok plan) :
    ∃ pre post, plan.sql = pre ++ (" ORDER BY " ++ pk) ++ post := by
  unfold dynamicquery at h
  rw [if_neg (by simp)] at h
  cases hl : dqLoop (mkTable name pk) (lcKwargs kwargs) dqInit with
  | error e => rw [hl] at h; injection h
  | ok st =>
    rw [hl] at h
    dsimp only [] at h
    have hob : st.orderby = PyV.none := by
      have h1 : ∀ p ∈ lcKwargs kwargs, p.1 ≠ "orderby" := by
        intro p hp
        rcases lcKwargs_keys kwargs p hp with ⟨q, hq, he⟩
        rw [he]; exact hkw q hq
      exact dqLoop_orderby (mkTable name pk) (lcKwargs kwargs) dqInit st h1 hl
    unfold dqFinish at h
    by_cases hw : (pyTruthy st.where_ && !st.constraints.isEmpty) = true
    · rw [if_pos hw] at h; injection h
    · rw [if_neg hw] at h
      have hob₁ : (if !st.constraints.isEmpty then
          { st with where_ := PyV.str (pyJoin " AND " st.constraints) } else st).orderby
          = PyV.none := by
        split <;> exact hob
      exact dqOrder_none name pk (pyLower m) _ plan hob₁ hpk h

/-- Witness for C9: a plain `find_by_name` list query (no one-result
prefix, no orderby keyword) still orders by the primary key. -/
theorem default_orderby_pk_witness :
    dynamicquery (mkTable "tbl" "id") "find_by_name" 0 [("name", .str "bob")] =
      .ok ⟨"SELECT * FROM tbl WHERE name = ? ORDER BY id", [.str "bob"], false⟩
    ∧ ∃ pre post, "SELECT * FROM tbl WHERE name = ? ORDER BY id" =
        pre ++ (" ORDER BY " ++ "id") ++ post := by
  refine ⟨rfl, ?_⟩
  have h := default_orderby_pk "tbl" "id" "find_by_name" [("name", .str "bob")]
    ⟨"SELECT * FROM tbl WHERE name = ? ORDER BY id", [.str "bob"], false⟩
    (by intro p hp; simp at hp; rw [hp]; decide) (by decide) rfl
  exact h

/-- C10: `scalar` returns `None` when the statement yields no row or a
zero-length first row, and otherwise the first column of the first row;
it is total, so it never raises on an empty result set. -/
theorem scalar_empty_result :
    (∀ (fetchone : String → List PyV → Option (List PyV)) (sql : String) (params : List PyV),
       fetchone sql params = Option.none → scalar fetchone sql params = Option.none)
    ∧ (∀ (fetchone : String → List PyV → Option (List PyV)) (sql : String) (params : List PyV),
       fetchone sql params = Option.some [] → scalar fetchone sql params = Option.none)
    ∧ (∀ (fetchone : String → List PyV → Option (List PyV)) (sql : String) (params : List PyV)
        (x : PyV) (xs : List PyV),
       fetchone sql params = Option.some (x :: xs) →
       scalar fetchone sql params = Option.some x) := by
  refine ⟨?_, ?_, ?_⟩
  · intro fetchone sql params h; unfold scalar; rw [h]
  · intro fetchone sql params h; unfold scalar; rw [h]
  · intro fetchone sql params x xs h; unfold scalar; rw [h]

/-- Witness for C10: the three fetch outcomes at concrete cursors. -/
theorem scalar_empty_result_witness :
    scalar (fun _ _ => Option.none) "q" [] = Option.none
    ∧ scalar (fun _ _ => Option.some []) "q" [] = Option.none
    ∧ scalar (fun _ _ => Option.some [.int 9]) "q" [] = Option.some (.int 9) :=
  ⟨scalar_empty_result.1 (fun _ _ => Option.none) "q" [] rfl,
   scalar_empty_result.2.1 (fun _ _ => Option.some []) "q" [] rfl,
   scalar_empty_result.2.2 (fun _ _ => Option.some [.int 9]) "q" [] (.int 9) [] rfl⟩

end Tbltalk
